import Mathlib

/-!
Shallow embedding of the notification/authorization component of the
repository (src/bot.py, class NotificationBot), together with proofs of
the spec's claims about it.

Modelling conventions:
- A chat identity is an `Int` (Python ints).
- The recipient store (`self.authorized_users`, a Python `set[int]`) is a
  `Finset Int`.
- The filesystem state visible to the component is `FS`: the auth backing
  file (`auth_users.json`) is `Option (List Int)` (`none` = file absent,
  `some l` = file holds the JSON array `l`), and the durable configuration
  entry `TELEGRAM_BOT_PASSWORD` written by `set_key` is `Option String`.
- The per-recipient outbound HTTP call in `send_message` is a parameter
  `transport : Int -> TransportResult`: it either raises
  (`TransportResult.raised`, the Python `except` path) or returns a
  response with a status code.
- The `try/except` blocks of the source that absorb exceptions are
  modelled by totality; exceptions that the source lets propagate
  (`set_key` in `update_password`) are surfaced as a `raised` flag, with
  the state fields reflecting the mutations already performed before the
  raise, exactly as in the source.
-/

namespace Site

/-- Outcome of one outbound `requests.post` call: either the call raised
(network exception) or it returned a response with the given status code. -/
inductive TransportResult where
  | raised : TransportResult
  | response : Nat → TransportResult
deriving DecidableEq, Repr

/-- The success test of the send loop: `response.status_code == 200`.
A raised call is never a success (the `except` branch only logs). -/
def isSuccess : TransportResult → Bool
  | TransportResult.response s => s == 200
  | TransportResult.raised => false

/-- Filesystem/durable-configuration state visible to the component. -/
structure FS where
  authFile : Option (List Int)
  envPassword : Option String
deriving DecidableEq, Repr

/-- In-memory state of a `NotificationBot` instance: the fields of
`__init__` that the verified operations read or write. -/
structure BotState where
  token : String
  password : String
  adminChatId : Int
  authorizedUsers : Finset Int
deriving DecidableEq

/-- `NotificationBot._load_authorized_users`: read the persisted JSON list
and build a set from it; a missing file (or a read failure, absorbed by the
source's `try/except`) yields the empty set. -/
def _load_authorized_users (file : Option (List Int)) : Finset Int :=
  match file with
  | some l => l.toFinset
  | none => ∅

/-- A Python set iterated as a list (`list(s)`, `for x in s`). Iteration
order of a Python set is unspecified and carries no significance here, so
we fix one concrete order: ascending. -/
def storeList (users : Finset Int) : List Int :=
  users.sort (fun a b => a ≤ b)

/-- `NotificationBot._save_authorized_users`: write the current set as a
JSON list, i.e. the backing file now holds exactly the set's elements. -/
def _save_authorized_users (users : Finset Int) : Option (List Int) :=
  some (storeList users)

/-- `NotificationBot.__init__`: rejects an empty token or an empty
password by raising `ValueError` (a falsy string in Python is exactly the
empty string; the `isinstance` checks are vacuous for typed arguments),
then loads the recipient store from the backing file. -/
def mkNotificationBot (token : String) (password : String) (adminChatId : Int)
    (file : Option (List Int)) : Except String BotState :=
  if token = "" then Except.error "Неверный токен бота"
  else if password = "" then Except.error "Неверный пароль"
  else Except.ok
    { token := token, password := password, adminChatId := adminChatId,
      authorizedUsers := _load_authorized_users file }

/-- The replies `verify_user` can send. -/
inductive Reply where
  | accessDenied : Reply
  | accessGranted : Reply
  | invalidPassword : Reply
deriving DecidableEq, Repr

/-- Result of handling one inbound text message in `verify_user`: the new
bot state, the new filesystem state, and the reply sent. -/
structure VerifyOutcome where
  bot : BotState
  fs : FS
  reply : Reply
deriving DecidableEq

/-- `NotificationBot.verify_user`: deny any non-admin chat id before even
looking at the text; for the admin, compare the text against the current
password, and on a match insert the admin id into the store and persist it. -/
def verify_user (bot : BotState) (fs : FS) (chatId : Int) (text : Option String) :
    VerifyOutcome :=
  if chatId ≠ bot.adminChatId then
    ⟨bot, fs, Reply.accessDenied⟩
  else if text = some bot.password then
    let users := insert chatId bot.authorizedUsers
    ⟨{ bot with authorizedUsers := users },
      { fs with authFile := _save_authorized_users users },
      Reply.accessGranted⟩
  else
    ⟨bot, fs, Reply.invalidPassword⟩

/-- Result of `send_message`: the boolean returned to the caller and the
list of chat ids for which an outbound call was issued, in loop order. -/
structure SendOutcome where
  result : Bool
  attempts : List Int
deriving DecidableEq, Repr

/-- `NotificationBot.send_message`: return `false` at once on an empty
store; otherwise loop over every recipient, issuing one outbound call
each, setting `success` on a 200 response and merely logging a non-200
response or a raised call (the `except` branch), then return `success`. -/
def send_message (bot : BotState) (transport : Int → TransportResult) : SendOutcome :=
  if bot.authorizedUsers = ∅ then
    ⟨false, []⟩
  else
    let ids := storeList bot.authorizedUsers
    ⟨ids.foldl (fun success chat_id => success || isSuccess (transport chat_id)) false, ids⟩

/-- Result of `update_password`: the new bot state, the new filesystem
state, and whether the call raised to its caller. -/
structure UpdateOutcome where
  bot : BotState
  fs : FS
  raised : Bool
deriving DecidableEq

/-- `NotificationBot.update_password`: install the new password and clear
the store unconditionally; then try to delete the backing file when it
exists, absorbing and logging a deletion failure (`removeRaises`); then
call `set_key` outside any `try`, so a `set_key` failure (`setKeyRaises`)
propagates to the caller with the in-memory mutations already done. -/
def update_password (bot : BotState) (fs : FS) (new_password : String)
    (removeRaises : Bool) (setKeyRaises : Bool) : UpdateOutcome :=
  let bot1 := { bot with password := new_password, authorizedUsers := ∅ }
  let fs1 := if fs.authFile.isSome && !removeRaises then { fs with authFile := none } else fs
  if setKeyRaises then
    ⟨bot1, fs1, true⟩
  else
    ⟨bot1, { fs1 with envPassword := some new_password }, false⟩

/-- Folding the or-accumulation of the send loop equals `List.any`. -/
theorem foldl_or_eq_any (p : Int → Bool) (l : List Int) (b : Bool) :
    l.foldl (fun acc x => acc || p x) b = (b || l.any p) := by
  induction l generalizing b with
  | nil => simp
  | cons x xs ih => simp [List.foldl_cons, ih, Bool.or_assoc]

/-- `isSuccess` holds exactly on a 200 response. -/
theorem isSuccess_eq_true_iff (r : TransportResult) :
    isSuccess r = true ↔ r = TransportResult.response 200 := by
  cases r with
  | raised => simp [isSuccess]
  | response s => simp [isSuccess]

/-- A concrete bot with three authorized recipients, used by witnesses. -/
def cBot : BotState :=
  { token := "t0k", password := "hunter2", adminChatId := 42, authorizedUsers := {1, 2, 3} }

/-- A concrete bot with an empty recipient store, used by witnesses. -/
def eBot : BotState :=
  { token := "t0k", password := "hunter2", adminChatId := 42, authorizedUsers := ∅ }

/-- A concrete filesystem state with no backing file, used by witnesses. -/
def cFs : FS := { authFile := none, envPassword := some "hunter2" }

/-- A concrete transport where only chat 2 succeeds: chat 1 and 3 raise. -/
def cTransport : Int → TransportResult :=
  fun chat_id => if chat_id = 2 then TransportResult.response 200 else TransportResult.raised

/-- A concrete transport where every call fails: chat 1 raises, the rest
get a 500 response. -/
def allFailTransport : Int → TransportResult :=
  fun chat_id => if chat_id = 1 then TransportResult.raised else TransportResult.response 500

/-- Claim C1: for a non-empty recipient store, `send_message` returns
`true` iff at least one per-recipient outbound call returns status 200;
hence `true` with one success among failures and `false` when every call
fails or raises. -/
theorem send_message_true_iff_some_success (bot : BotState)
    (transport : Int → TransportResult) (h : bot.authorizedUsers ≠ ∅) :
    (send_message bot transport).result = true ↔
      ∃ chat_id ∈ bot.authorizedUsers, transport chat_id = TransportResult.response 200 := by
  unfold send_message
  rw [if_neg h]
  simp only [foldl_or_eq_any, Bool.false_or, List.any_eq_true, storeList, Finset.mem_sort,
    isSuccess_eq_true_iff]

/-- Witness for C1: with recipients 1, 2, 3 where only 2 succeeds the
result is `true`; with every call failing (raise or 500) it is `false`. -/
theorem send_message_true_iff_some_success_witness :
    (send_message cBot cTransport).result = true ∧
      (send_message cBot allFailTransport).result = false :=
  ⟨(send_message_true_iff_some_success cBot cTransport (by decide)).mpr
      ⟨2, by decide, by decide⟩,
    by
      have h := send_message_true_iff_some_success cBot allFailTransport (by decide)
      have hne : ¬ ∃ chat_id ∈ cBot.authorizedUsers,
          allFailTransport chat_id = TransportResult.response 200 := by decide
      cases hres : (send_message cBot allFailTransport).result
      · rfl
      · exact absurd (h.mp hres) hne⟩

/-- Claim C2: on an empty recipient store `send_message` returns `false`
immediately and attempts no outbound call (and, being total, raises
nothing), for every message text and transport behaviour. -/
theorem send_message_empty_store (bot : BotState) (transport : Int → TransportResult)
    (h : bot.authorizedUsers = ∅) :
    send_message bot transport = ⟨false, []⟩ := by
  unfold send_message
  rw [if_pos h]

/-- Witness for C2: a concrete bot with an empty store returns `false`
with no attempted calls. -/
theorem send_message_empty_store_witness :
    send_message eBot cTransport = ⟨false, []⟩ :=
  send_message_empty_store eBot cTransport (by decide)

/-- Claim C3: even when some recipient's call fails (raises or gets a
non-200 response), an outbound call is still attempted for every
recipient in the store — the broadcast loop is not aborted, and as a
total function it never raises to the caller. -/
theorem send_message_attempts_every_recipient (bot : BotState)
    (transport : Int → TransportResult)
    (h : ∃ chat_id ∈ bot.authorizedUsers, isSuccess (transport chat_id) = false) :
    (send_message bot transport).attempts = storeList bot.authorizedUsers := by
  unfold send_message
  by_cases he : bot.authorizedUsers = ∅
  · obtain ⟨c, hc, _⟩ := h
    rw [he] at hc
    exact absurd hc (Finset.not_mem_empty c)
  · rw [if_neg he]

/-- Witness for C3: recipient 1 raises, yet calls are attempted for all
of 1, 2, 3. -/
theorem send_message_attempts_every_recipient_witness :
    (send_message cBot cTransport).attempts = storeList cBot.authorizedUsers :=
  send_message_attempts_every_recipient cBot cTransport ⟨1, by decide, by decide⟩

/-- Claim C5: an inbound text from a chat id other than the admin id is
answered "access denied" and changes neither the bot state (store, secret)
nor the filesystem — even when the text equals the current secret, since
the identity check comes first. -/
theorem verify_user_non_admin_denied (bot : BotState) (fs : FS) (chatId : Int)
    (text : Option String) (h : chatId ≠ bot.adminChatId) :
    verify_user bot fs chatId text = ⟨bot, fs, Reply.accessDenied⟩ := by
  unfold verify_user
  rw [if_pos h]

/-- Witness for C5: chat 7 sending the correct secret is still denied and
nothing changes. -/
theorem verify_user_non_admin_denied_witness :
    verify_user cBot cFs 7 (some "hunter2") = ⟨cBot, cFs, Reply.accessDenied⟩ :=
  verify_user_non_admin_denied cBot cFs 7 (some "hunter2") (by decide)

/-- Claim C6: an admin text equal to the secret adds the admin id to the
store, persists the full set to the backing file and replies "access
granted"; an admin text different from the secret replies "invalid
password" and leaves everything unchanged. -/
theorem verify_user_admin_cases (bot : BotState) (fs : FS) (text : String) :
    (verify_user bot fs bot.adminChatId (some bot.password) =
      ⟨{ bot with authorizedUsers := insert bot.adminChatId bot.authorizedUsers },
        { fs with authFile :=
            _save_authorized_users (insert bot.adminChatId bot.authorizedUsers) },
        Reply.accessGranted⟩)
    ∧ (text ≠ bot.password →
        verify_user bot fs bot.adminChatId (some text) = ⟨bot, fs, Reply.invalidPassword⟩) := by
  constructor
  · unfold verify_user
    simp
  · intro hne
    unfold verify_user
    simp [hne]

/-- Witness for C6: the admin sending a wrong text gets "invalid
password" with no state change. -/
theorem verify_user_admin_cases_witness :
    verify_user cBot cFs cBot.adminChatId (some "wrong") = ⟨cBot, cFs, Reply.invalidPassword⟩ :=
  (verify_user_admin_cases cBot cFs "wrong").2 (by decide)

/-- Claim C7: persistence round-trip — after inserting identity `i` and
saving the store, reloading the backing file (simulated restart) yields a
store containing `i`. -/
theorem add_save_load_roundtrip (users : Finset Int) (i : Int) :
    i ∈ _load_authorized_users (_save_authorized_users (insert i users)) := by
  simp [_load_authorized_users, _save_authorized_users, storeList]

/-- Claim C8: authorization is idempotent — the admin sending the correct
secret twice leaves the store after the second message equal to the store
after the first, the admin id occurs exactly once (no duplicates), and
both messages are answered "access granted". -/
theorem verify_user_idempotent (bot : BotState) (fs : FS) :
    (verify_user (verify_user bot fs bot.adminChatId (some bot.password)).bot
        (verify_user bot fs bot.adminChatId (some bot.password)).fs
        bot.adminChatId (some bot.password)).bot.authorizedUsers =
      (verify_user bot fs bot.adminChatId (some bot.password)).bot.authorizedUsers
    ∧ ((verify_user bot fs bot.adminChatId (some bot.password)).bot.authorizedUsers.val.count
        bot.adminChatId = 1)
    ∧ (verify_user bot fs bot.adminChatId (some bot.password)).reply = Reply.accessGranted
    ∧ (verify_user (verify_user bot fs bot.adminChatId (some bot.password)).bot
        (verify_user bot fs bot.adminChatId (some bot.password)).fs
        bot.adminChatId (some bot.password)).reply = Reply.accessGranted := by
  unfold verify_user
  simp [Finset.insert_idem]
  exact Multiset.count_eq_one_of_mem
    (insert bot.adminChatId bot.authorizedUsers).nodup
    (Finset.mem_insert_self bot.adminChatId bot.authorizedUsers)

/-- Claim C4: after a successful `update_password new` the store is
empty and the backing file is gone; the old secret (when distinct from
`new`) no longer authorizes — the admin sending it gets "invalid
password" with no state change — while the admin sending `new` is
re-added to the store with "access granted". -/
theorem update_password_invalidates (bot : BotState) (fs : FS) (new : String) :
    (update_password bot fs new false false).bot.authorizedUsers = ∅
    ∧ (update_password bot fs new false false).fs.authFile = none
    ∧ (bot.password ≠ new →
        verify_user (update_password bot fs new false false).bot
            (update_password bot fs new false false).fs bot.adminChatId
            (some bot.password) =
          ⟨(update_password bot fs new false false).bot,
            (update_password bot fs new false false).fs, Reply.invalidPassword⟩)
    ∧ (verify_user (update_password bot fs new false false).bot
          (update_password bot fs new false false).fs bot.adminChatId
          (some new)).bot.authorizedUsers = {bot.adminChatId}
    ∧ (verify_user (update_password bot fs new false false).bot
          (update_password bot fs new false false).fs bot.adminChatId
          (some new)).reply = Reply.accessGranted := by
  refine ⟨rfl, ?_, ?_, ?_, ?_⟩
  · unfold update_password
    cases hf : fs.authFile <;> simp [hf]
  · intro hne
    unfold update_password verify_user
    simp [hne]
  · unfold update_password verify_user
    simp
  · unfold update_password verify_user
    simp

/-- Witness for C4: rotating the secret of the concrete bot to "newpass",
then the admin sending the old secret "hunter2" is rejected. -/
theorem update_password_invalidates_witness :
    verify_user (update_password cBot cFs "newpass" false false).bot
        (update_password cBot cFs "newpass" false false).fs cBot.adminChatId
        (some cBot.password) =
      ⟨(update_password cBot cFs "newpass" false false).bot,
        (update_password cBot cFs "newpass" false false).fs, Reply.invalidPassword⟩ :=
  (update_password_invalidates cBot cFs "newpass").2.2.1 (by decide)

/-- A concrete filesystem state where the backing file exists. -/
def fileFs : FS := { authFile := some [5], envPassword := some "hunter2" }

/-- Counterexample to C9: with the backing file present, a failing delete
(`os.remove` raising) does NOT make `update_password` raise — the
exception is caught and logged, and the call returns normally. -/
theorem update_password_remove_failure_no_raise :
    fileFs.authFile.isSome = true
    ∧ (update_password cBot fileFs "newpass" true false).raised = false :=
  ⟨rfl, rfl⟩

/-- Amended C9: `update_password` raises to its caller exactly when the
`set_key` write of the new secret fails; a failure deleting the backing
file is absorbed (only logged) and leaves the file in place, and neither
failure is retried. -/
theorem update_password_raised_iff_setkey (bot : BotState) (fs : FS) (new : String)
    (removeRaises setKeyRaises : Bool) :
    (update_password bot fs new removeRaises setKeyRaises).raised = setKeyRaises
    ∧ (update_password bot fs new true setKeyRaises).fs.authFile = fs.authFile := by
  unfold update_password
  cases setKeyRaises <;> simp

/-- Claim C10: `update_password` has no precondition on its argument —
for any string, even the empty one, it returns without raising, installs
the string as the current secret and clears the store, although
construction rejects an empty password with `ValueError`. -/
theorem update_password_no_precondition (bot : BotState) (fs : FS)
    (file2 : Option (List Int)) (new : String) (htok : bot.token ≠ "") :
    (update_password bot fs new false false).raised = false
    ∧ (update_password bot fs new false false).bot.password = new
    ∧ (update_password bot fs new false false).bot.authorizedUsers = ∅
    ∧ mkNotificationBot bot.token "" bot.adminChatId file2 =
        Except.error "Неверный пароль" := by
  refine ⟨rfl, rfl, rfl, ?_⟩
  unfold mkNotificationBot
  rw [if_neg htok, if_pos rfl]

/-- Witness for C10: rotating the concrete bot's secret to the empty
string succeeds and clears the store, yet construction with an empty
password errors. -/
theorem update_password_no_precondition_witness :
    (update_password cBot cFs "" false false).raised = false
    ∧ (update_password cBot cFs "" false false).bot.password = ""
    ∧ (update_password cBot cFs "" false false).bot.authorizedUsers = ∅
    ∧ mkNotificationBot cBot.token "" cBot.adminChatId none =
        Except.error "Неверный пароль" :=
  update_password_no_precondition cBot cFs none "" (by decide)

end Site
